import Mathlib

/-!
Verification of the PyBigBuy response-classification and rate-limit-retry
subsystem.

The repository consists of `bigbuy/api.py` (the `BigBuy` client, whose only
non-boilerplate method is `get_tracking_orders`) and the test suite
`tests/test_exceptions.py`.  The classification module `bigbuy/exceptions.py`
(functions `json_or_none`, `flat_children_errors`, `raise_for_response`,
`wait_rate_limit`, class `BBRateLimitError`) and the rate-limit retry wiring
of `BigBuy.request_api` are referenced by the tests and by `api.py` but their
source is not part of the tree; those parts are modelled here from the
specification, with behaviour pinned by the in-tree tests where the two
disagree.  Everything else is translated directly from the source.

Machine integers do not occur (Python ints are unbounded); times are epoch
seconds modelled as `Int`.
-/

set_option maxHeartbeats 1000000
set_option maxRecDepth 10000

namespace PyBigBuy

/-- JSON values, the output type of the JSON decoding collaborator
(`json.loads` in the source).  Numbers are restricted to integers, which is
exact for every payload the classifier inspects (`code` fields and epoch
seconds). -/
inductive J : Type where
  | null : J
  | jbool : Bool → J
  | num : Int → J
  | str : String → J
  | arr : List J → J
  | obj : List (String × J) → J
deriving Repr

/-- The opening-brace character, kept out of string literals. -/
def lbraceCh : Char := Char.ofNat 123

/-- The closing-brace character, kept out of string literals. -/
def rbraceCh : Char := Char.ofNat 125

/-- Drop leading JSON whitespace. -/
def skipWs : List Char → List Char
  | c :: cs => if c = ' ' ∨ c = '\n' ∨ c = '\r' ∨ c = '\t' then skipWs cs else c :: cs
  | [] => []

/-- Accumulate a decimal number from leading digits, returning the value and
the remaining characters. -/
def digitsVal : Nat → List Char → Nat × List Char
  | acc, c :: cs => if c.isDigit then digitsVal (acc * 10 + (c.toNat - 48)) cs else (acc, c :: cs)
  | acc, [] => (acc, [])

/-- Decode a single JSON string escape character. -/
def unescapeChar (c : Char) : Option Char :=
  if c = '"' ∨ c = '\\' ∨ c = '/' then some c
  else if c = 'n' then some '\n'
  else if c = 't' then some '\t'
  else if c = 'r' then some '\r'
  else none

/-- Parse the body of a JSON string after the opening quote; returns the
decoded characters and the input after the closing quote. -/
def parseStrBody : List Char → Option (List Char × List Char)
  | [] => none
  | c :: cs =>
    if c = '"' then some ([], cs)
    else if c = '\\' then
      match cs with
      | [] => none
      | e :: cs2 =>
        match unescapeChar e, parseStrBody cs2 with
        | some u, some (s, r) => some (u :: s, r)
        | _, _ => none
    else
      match parseStrBody cs with
      | some (s, r) => some (c :: s, r)
      | none => none

mutual

/-- Fuel-indexed recursive-descent parser for a JSON value. -/
def parseValue : Nat → List Char → Option (J × List Char)
  | 0, _ => none
  | fuel+1, cs =>
    match skipWs cs with
    | [] => none
    | c :: rest =>
      if c = 'n' then
        match rest with
        | 'u' :: 'l' :: 'l' :: r => some (.null, r)
        | _ => none
      else if c = 't' then
        match rest with
        | 'r' :: 'u' :: 'e' :: r => some (.jbool true, r)
        | _ => none
      else if c = 'f' then
        match rest with
        | 'a' :: 'l' :: 's' :: 'e' :: r => some (.jbool false, r)
        | _ => none
      else if c = '"' then
        match parseStrBody rest with
        | some (s, r) => some (.str (String.mk s), r)
        | none => none
      else if c = '-' then
        match rest with
        | d :: _ =>
          if d.isDigit then
            let p := digitsVal 0 rest
            some (.num (-(p.fst : Int)), p.snd)
          else none
        | [] => none
      else if c.isDigit then
        let p := digitsVal 0 (c :: rest)
        some (.num (p.fst : Int), p.snd)
      else if c = '[' then parseArrItems fuel rest
      else if c = lbraceCh then parseObjItems fuel rest
      else none

/-- Parse the items of a JSON array after the opening bracket. -/
def parseArrItems : Nat → List Char → Option (J × List Char)
  | 0, _ => none
  | fuel+1, cs =>
    match skipWs cs with
    | c :: rest =>
      if c = ']' then some (.arr [], rest)
      else
        match parseValue fuel (c :: rest) with
        | some (v, r2) => parseArrRest fuel [v] r2
        | none => none
    | [] => none

/-- Parse the remaining items of a JSON array after at least one item. -/
def parseArrRest : Nat → List J → List Char → Option (J × List Char)
  | 0, _, _ => none
  | fuel+1, acc, cs =>
    match skipWs cs with
    | c :: rest =>
      if c = ']' then some (.arr acc.reverse, rest)
      else if c = ',' then
        match parseValue fuel rest with
        | some (v, r2) => parseArrRest fuel (v :: acc) r2
        | none => none
      else none
    | [] => none

/-- Parse the fields of a JSON object after the opening brace. -/
def parseObjItems : Nat → List Char → Option (J × List Char)
  | 0, _ => none
  | fuel+1, cs =>
    match skipWs cs with
    | c :: rest =>
      if c = rbraceCh then some (.obj [], rest)
      else
        match parsePair fuel (c :: rest) with
        | some (kv, r2) => parseObjRest fuel [kv] r2
        | none => none
    | [] => none

/-- Parse the remaining fields of a JSON object after at least one field. -/
def parseObjRest : Nat → List (String × J) → List Char → Option (J × List Char)
  | 0, _, _ => none
  | fuel+1, acc, cs =>
    match skipWs cs with
    | c :: rest =>
      if c = rbraceCh then some (.obj acc.reverse, rest)
      else if c = ',' then
        match parsePair fuel rest with
        | some (kv, r2) => parseObjRest fuel (kv :: acc) r2
        | none => none
      else none
    | [] => none

/-- Parse one `"key": value` pair of a JSON object. -/
def parsePair : Nat → List Char → Option ((String × J) × List Char)
  | 0, _ => none
  | fuel+1, cs =>
    match skipWs cs with
    | c :: rest =>
      if c = '"' then
        match parseStrBody rest with
        | some (k, r2) =>
          match skipWs r2 with
          | ':' :: r3 =>
            match parseValue fuel r3 with
            | some (v, r4) => some ((String.mk k, v), r4)
            | none => none
          | _ => none
        | none => none
      else none
    | [] => none

end

/-- Decode a whole string as JSON; the entire input must be consumed.
Model of the external `json.loads`, returning `none` where it raises. -/
def parseJSON (s : String) : Option J :=
  match parseValue (2 * s.length + 4) s.data with
  | some (v, rest) => if skipWs rest = [] then some v else none
  | none => none

/-- Modelled from the spec: `bigbuy.exceptions.json_or_none` is not under
src/.  Decodes a string as JSON, mapping both the empty string and the JSON
null literal (and any undecodable input) to the absent value. -/
def json_or_none (s : String) : Option J :=
  match parseJSON s with
  | some J.null => none
  | some v => some v
  | none => none

/-- Escape one character for inclusion in a JSON string literal. -/
def escapeCh (c : Char) : List Char :=
  if c = '"' ∨ c = '\\' then ['\\', c] else [c]

/-- Escape a character list for inclusion in a JSON string literal. -/
def escList : List Char → List Char
  | [] => []
  | c :: cs => escapeCh c ++ escList cs

/-- Render a string as a JSON string literal. -/
def renderStr (s : String) : String :=
  "\"" ++ String.mk (escList s.data) ++ "\""

mutual

/-- Serialize a JSON value (compact form); used to build the concrete
response bodies the tests exercise. -/
def renderJ : J → String
  | .null => "null"
  | .jbool true => "true"
  | .jbool false => "false"
  | .num n => toString n
  | .str s => renderStr s
  | .arr xs => "[" ++ renderItems xs ++ "]"
  | .obj kvs => String.singleton lbraceCh ++ renderFields kvs ++ String.singleton rbraceCh

/-- Serialize the comma-separated items of a JSON array. -/
def renderItems : List J → String
  | [] => ""
  | [x] => renderJ x
  | x :: y :: rest => renderJ x ++ "," ++ renderItems (y :: rest)

/-- Serialize the comma-separated fields of a JSON object. -/
def renderFields : List (String × J) → String
  | [] => ""
  | [(k, v)] => renderStr k ++ ":" ++ renderJ v
  | (k, v) :: kv2 :: rest => renderStr k ++ ":" ++ renderJ v ++ "," ++ renderFields (kv2 :: rest)

end

/-! ### Rate-limit metadata (`BBRateLimitError`) -/

/-- Case-insensitive header lookup, the header-mapping contract the spec
gives for the reset header. -/
def headerLookup (headers : List (String × String)) (name : String) : Option String :=
  match headers.find? (fun kv => kv.fst.toLower == name.toLower) with
  | some kv => some kv.snd
  | none => none

/-- Parse a header value holding a Unix epoch timestamp in integer seconds. -/
def parseEpochSeconds (s : String) : Option Int :=
  match s.data with
  | [] => none
  | _ :: _ =>
    if s.data.all (fun d => d.isDigit) then some ((digitsVal 0 s.data).fst : Int) else none

/-- Modelled from the spec: the reset instant `bigbuy.exceptions.BBRateLimitError`
derives from the `X-Ratelimit-Reset` response header (absent header, absent
instant). -/
def rateLimitResetOf (headers : List (String × String)) : Option Int :=
  match headerLookup headers "x-ratelimit-reset" with
  | some v => parseEpochSeconds v
  | none => none

/-- Modelled from the spec: `bigbuy.exceptions.BBRateLimitError` is not under
src/.  It carries a message and the optional reset instant (epoch seconds)
parsed from the rate-limit reset header. -/
structure BBRateLimitError where
  text : String
  reset_time : Option Int
deriving Repr, DecidableEq

/-- Build a `BBRateLimitError` from a response's headers, as the constructor
in the source does. -/
def mkBBRateLimitError (text : String) (headers : List (String × String)) : BBRateLimitError :=
  { text := text, reset_time := rateLimitResetOf headers }

/-- Modelled from the spec: `BBRateLimitError.reset_timedelta` is not under
src/.  Returns `reset_time - utcnow` when positive, else the absent value. -/
def BBRateLimitError.reset_timedelta (e : BBRateLimitError) (utcnow : Int) : Option Int :=
  match e.reset_time with
  | none => none
  | some t => if t ≤ utcnow then none else some (t - utcnow)

/-- Modelled from the spec: `bigbuy.exceptions.wait_rate_limit` is not under
src/.  Given a rate-limit error, it waits out the error's reset delta and
reports `true`, or reports `false` without waiting when there is nothing to
wait for.  The second component records the durations passed to the supplied
wait function (empty list: the wait function was never invoked). -/
def wait_rate_limit (e : BBRateLimitError) (utcnow : Int) : Bool × List Int :=
  match e.reset_timedelta utcnow with
  | none => (false, [])
  | some d => (true, [d])

/-! ### Nested validation-error flattening -/

/-- The string elements of a JSON array (an upstream errors list). -/
def strsOf (xs : List J) : List String :=
  xs.filterMap (fun j => match j with | .str s => some s | _ => none)

/-- The errors list attached to a node given as a JSON object. -/
def errsOfKVs (kvs : List (String × J)) : List String :=
  match List.lookup "errors" kvs with
  | some (.arr xs) => strsOf xs
  | _ => []

/-- Append a field name to a dotted path. -/
def joinPath (p name : String) : String := if p = "" then name else p ++ "." ++ name

mutual

/-- Structural depth of a JSON value, used as recursion fuel. -/
def jdepth : J → Nat
  | .obj kvs => jdepthKVs kvs + 1
  | .arr xs => jdepthItems xs + 1
  | _ => 1

/-- Maximal depth among the values of an object's fields. -/
def jdepthKVs : List (String × J) → Nat
  | [] => 0
  | (_, v) :: rest => max (jdepth v) (jdepthKVs rest)

/-- Maximal depth among the items of an array. -/
def jdepthItems : List J → Nat
  | [] => 0
  | x :: rest => max (jdepth x) (jdepthItems rest)

end

/-- Modelled from the spec: the recursive flattening of one node of the
upstream validation tree (`bigbuy.exceptions.flat_children_errors` is not
under src/).  A node is either a JSON object with optional `errors` list and
optional `children` (a mapping of field name to node, or a sequence of nodes
recursed at the same path), or a bare list of error strings.  Only non-empty
errors lists are emitted, so all-empty subtrees contribute nothing.  `fuel`
bounds the recursion depth; any value at least the tree depth computes the
full flattening. -/
def flattenNode : Nat → String → J → List (String × List String)
  | 0, _, _ => []
  | fuel+1, path, J.obj kvs =>
    (let e := errsOfKVs kvs
     if e = [] then [] else [(path, e)])
    ++ (match List.lookup "children" kvs with
        | some (.obj m) =>
          m.foldr (fun kv acc => flattenNode fuel (joinPath path kv.fst) kv.snd ++ acc) []
        | some (.arr l) =>
          l.foldr (fun c acc => flattenNode fuel path c ++ acc) []
        | _ => [])
  | _+1, path, J.arr xs =>
    (let e := strsOf xs
     if e = [] then [] else [(path, e)])
  | _+1, _, _ => []

/-- Modelled from the spec: `bigbuy.exceptions.flat_children_errors`,
flattening a children mapping (field name to node) into a mapping from
dotted field path to non-empty message lists. -/
def flat_children_errors (children : List (String × J)) : List (String × List String) :=
  children.foldr (fun kv acc => flattenNode (jdepth kv.snd) kv.fst kv.snd ++ acc) []

/-! ### Response classification (`raise_for_response`) -/

/-- The classified error taxonomy raised by `bigbuy.exceptions`. -/
inductive BBError where
  | validationError : List (String × List String) → BBError
  | productError : String → List (String × String) → BBError
  | rateLimitError : Option Int → BBError
  | responseError : String → Int → BBError
  | serverError : String → BBError
deriving Repr, DecidableEq

/-- The numeric `code` field of a decoded JSON error body, when present. -/
def getCode (kvs : List (String × J)) : Option Int :=
  match List.lookup "code" kvs with
  | some (.num c) => some c
  | _ => none

/-- The `message` string of a decoded JSON error body (empty when absent). -/
def getMessage (kvs : List (String × J)) : String :=
  match List.lookup "message" kvs with
  | some (.str m) => m
  | _ => ""

/-- Modelled from the spec: detection of the double-encoded product-error
payload.  The `message` field is decoded as JSON again; an object with a
string `info` and an array `data` of per-SKU entries yields the info text
and the extracted `(sku, message)` pairs. -/
def productErrorData (message : String) : Option (String × List (String × String)) :=
  match json_or_none message with
  | some (.obj kvs) =>
    match List.lookup "info" kvs, List.lookup "data" kvs with
    | some (.str info), some (.arr items) =>
      some (info, items.filterMap (fun it =>
        match it with
        | .obj ikvs =>
          match List.lookup "sku" ikvs, List.lookup "message" ikvs with
          | some (.str sku), some (.str msg) => some (sku, msg)
          | _, _ => none
        | _ => none))
    | _, _ => none
  | _ => none

/-- Modelled from the spec: the structured-JSON error branch after the
product-error check failed — a 4xx status with a nested `errors` tree is a
validation error, anything else a generic response error with the declared
message and code. -/
def validationOrResponse (status code : Int) (kvs : List (String × J)) : BBError :=
  if 400 ≤ status ∧ status < 500 then
    match List.lookup "errors" kvs with
    | some (.obj ekvs) => .validationError (flattenNode (jdepth (J.obj ekvs)) "" (J.obj ekvs))
    | _ => .responseError (getMessage kvs) code
  else .responseError (getMessage kvs) code

/-- Modelled from the spec: classification steps that do not depend on a
structured JSON error body — the rate-limit signal (status 429 or reset
header present), unstructured 5xx bodies, the non-2xx fallback, and success
for 2xx. -/
def classifyRest (status : Int) (headers : List (String × String)) (body : String) : Option BBError :=
  if status = 429 ∨ (headerLookup headers "x-ratelimit-reset").isSome then
    some (.rateLimitError (rateLimitResetOf headers))
  else if 500 ≤ status then some (.serverError body)
  else if 200 ≤ status ∧ status < 300 then none
  else some (.responseError body status)

/-- Modelled from the spec: the classification of one response given the
status actually in force (outer or embedded): empty and null bodies are
success; a JSON object body with a numeric `code` goes through the
product-error / validation / response-error branches; everything else is
classified by status and headers. -/
def classifyCore (status : Int) (headers : List (String × String)) (body : String) : Option BBError :=
  if body = "" ∨ body = "null" then none
  else
    match json_or_none body with
    | some (.obj kvs) =>
      match getCode kvs with
      | some code =>
        if code = 409 then
          match productErrorData (getMessage kvs) with
          | some (info, pairs) => some (.productError info pairs)
          | none => some (validationOrResponse status code kvs)
        else some (validationOrResponse status code kvs)
      | none => classifyRest status headers body
    | _ => classifyRest status headers body

/-- Characters after the first occurrence of the given character. -/
def afterCh (target : Char) : List Char → Option (List Char)
  | [] => none
  | c :: cs => if c = target then some cs else afterCh target cs

/-- Characters after the first blank line (CRLF CRLF), i.e. the payload that
follows an embedded header block. -/
def afterBlankLine : List Char → Option (List Char)
  | '\r' :: '\n' :: '\r' :: '\n' :: rest => some rest
  | _ :: cs => afterBlankLine cs
  | [] => none

/-- Modelled from the spec: detection of a body that starts with a raw HTTP
status line.  Returns the embedded status code and the payload following the
embedded header block. -/
def parseEmbedded (body : String) : Option (Int × String) :=
  match body.data with
  | 'H' :: 'T' :: 'T' :: 'P' :: '/' :: rest =>
    match afterCh ' ' rest with
    | some afterSp =>
      match afterSp with
      | c :: _ =>
        if c.isDigit then
          let code := (digitsVal 0 afterSp).fst
          match afterBlankLine body.data with
          | some payload => some ((code : Int), String.mk payload)
          | none => some ((code : Int), "")
        else none
      | [] => none
    | none => none
  | _ => none

/-- Modelled from the spec: `bigbuy.exceptions.raise_for_response` is not
under src/.  Classifies a raw response; `none` is success (no exception
raised), `some e` is the classified error.  A body carrying an embedded HTTP
status line is classified by the embedded status and payload instead of the
outer ones. -/
def raise_for_response (status : Int) (headers : List (String × String)) (body : String) :
    Option BBError :=
  match parseEmbedded body with
  | some (estatus, payload) => classifyCore estatus headers payload
  | none => classifyCore status headers body

/-! ### Substring search (for stating "message contains ...") -/

/-- Whether the first list is an initial segment of the second. -/
def startsWithL : List Char → List Char → Bool
  | [], _ => true
  | _ :: _, [] => false
  | p :: ps, c :: cs => p = c && startsWithL ps cs

/-- Whether the pattern occurs in the list. -/
def containsL (pat : List Char) : List Char → Bool
  | [] => pat.isEmpty
  | c :: cs => startsWithL pat (c :: cs) || containsL pat cs

/-- Whether `pat` occurs as a substring of `s`. -/
def strContains (s pat : String) : Bool := containsL pat.data s.data

/-! ### The rate-limit retry coordinator (dispatch) -/

/-- One simulated transport response: a success payload, a non-rate-limit
classified error, or a rate-limit error carrying an optional reset instant. -/
inductive TResp where
  | ok : Nat → TResp
  | fail : String → TResp
  | rl : Option Int → TResp
deriving Repr, DecidableEq

/-- The outcome of a dispatch: the success value or the propagated error.
`noResponse` is the model artifact for an exhausted response script. -/
inductive DResult where
  | ok : Nat → DResult
  | fail : String → DResult
  | rateLimit : Option Int → DResult
  | noResponse : DResult
deriving Repr, DecidableEq

/-- Sum of a list of durations. -/
def sumList : List Int → Int
  | [] => 0
  | x :: xs => x + sumList xs

/-- Modelled from the spec: the rate-limit retry coordinator wrapped around
`BigBuy.request_api` is not under src/ (the `request_api` in
src/bigbuy/api.py has no retry branch and `BigBuy.__init__` accepts no
`retry_on_rate_limit` flag; only the tests exercise it).  The dispatch loop
follows the spec's state machine with the retry policy pinned by the
in-tree test `test_retry_on_rate_limit_true_2`: that test feeds two
consecutive rate-limited attempts with future reset times and asserts that
the call returns the eventual success, which requires a rate-limited retry
to be waited out and retried again rather than propagated.  The transport is
a script of responses consumed one per attempt; the clock starts at `now`
and advances by each waited duration; the returned list records the
durations waited. -/
def dispatch (retryOn : Bool) : Int → List TResp → DResult × List Int
  | _, [] => (.noResponse, [])
  | _, .ok v :: _ => (.ok v, [])
  | _, .fail m :: _ => (.fail m, [])
  | now, .rl reset :: rest =>
    match retryOn, wait_rate_limit { text := "rate limited", reset_time := reset } now with
    | true, (true, ws) =>
      let next := dispatch retryOn (now + sumList ws) rest
      (next.fst, ws ++ next.snd)
    | true, (false, _) => (.rateLimit reset, [])
    | false, _ => (.rateLimit reset, [])

/-! ### Tracking-order matching (`BigBuy.get_tracking_orders`, from src) -/

/-- An order or tracking identifier, which the source compares after
conversion to string (`str(...)`). -/
inductive Ident where
  | num : Int → Ident
  | str : String → Ident
deriving Repr, DecidableEq

/-- String conversion of an identifier, as Python's `str`. -/
def str_of_ident : Ident → String
  | .num n => toString n
  | .str s => s

/-- One tracking entry of the upstream reply: its `id` plus opaque payload
distinguishing entries. -/
structure Tracking where
  id : Ident
  payload : Nat
deriving Repr, DecidableEq

/-- One `tracking_by_id[str(tracking["id"])] = tracking` assignment: a
Python dict update, with later assignments overriding earlier ones. -/
def insertTracking (m : String → Option Tracking) (t : Tracking) : String → Option Tracking :=
  fun k => if k = str_of_ident t.id then some t else m k

/-- Embeds `BigBuy.get_tracking_orders` (src/bigbuy/api.py) given the
decoded upstream reply `trackings`: when `match_ids` is true, build
`tracking_by_id` keyed by `str(tracking["id"])` and return
`tracking_by_id.get(str(order_id))` for each requested order id; otherwise
return the reply as is. -/
def get_tracking_orders (order_ids : List Ident) (match_ids : Bool) (trackings : List Tracking) :
    List (Option Tracking) :=
  if match_ids = false then trackings.map some
  else
    let tracking_by_id := trackings.foldl insertTracking (fun _ => none)
    order_ids.map (fun oid => tracking_by_id (str_of_ident oid))

/-- First-some choice on options (Python dict lookup fallback order). -/
def optOr (a b : Option Tracking) : Option Tracking :=
  match a with
  | some x => some x
  | none => b

/-! ### Concrete fixtures from the test suite and the spec's examples -/

/-- The JSON payload embedded after the header block in the body-as-headers
test (`test_raise_for_response_soft_error_headers_in_body`). -/
def c2payload : String :=
  renderJ (J.obj [("error", J.str "Information is not available right now. Try it again later")])

/-- A 200 response body that is itself a raw HTTP/1.0 500 header block
followed by a blank line and a JSON error object. -/
def c2body : String :=
  "HTTP/1.0 500 Internal Server Error\r\nCache-Control: no-cache, private\r\n" ++
  "Content-Type:  application/json\r\n\r\n" ++ c2payload

/-- The double-encoded product-error message for a given SKU
(`test_raise_for_response_products_error` and the spec's example). -/
def innerProductJson (sku : String) : String :=
  renderJ (J.obj [("info", J.str "Products error."),
                  ("data", J.arr [J.obj [("sku", J.str sku),
                                         ("message", J.str "Inactive product.")]])])

/-- A 409 response body whose `message` field is the double-encoded
product-error payload for the given SKU. -/
def productBody (sku : String) : String :=
  renderJ (J.obj [("code", J.num 409), ("message", J.str (innerProductJson sku))])

/-- The soft-error body of `test_raise_for_response_soft_409`: outer status
200, declared code 409, plain message. -/
def softBody : String :=
  renderJ (J.obj [("code", J.num 409),
                  ("message", J.str "Something went wrong 56783360c34fff84fe56880fbf62179b")])

/-- The decoded fields of `softBody`. -/
def softKVs : List (String × J) :=
  [("code", J.num 409), ("message", J.str "Something went wrong 56783360c34fff84fe56880fbf62179b")]

/-- The decoded fields of `productBody "S1"`. -/
def productKVsS1 : List (String × J) :=
  [("code", J.num 409), ("message", J.str (innerProductJson "S1"))]

/-- The spec's flattening example: `a` has children `b` (one error) and `c`
(empty errors). -/
def c4tree : List (String × J) :=
  [("a", J.obj [("children",
     J.obj [("b", J.obj [("errors", J.arr [J.str "x"])]),
            ("c", J.obj [("errors", J.arr [])])])])]

/-- The all-empty tree of `test_flat_children_errors`: every branch prunes
away. -/
def c4empty : List (String × J) :=
  [("a", J.obj [("children", J.arr [J.obj [("children", J.obj [("b", J.arr [])])]])])]

/-! ### Helper lemmas -/

/-- Membership in a fold of appended blocks comes from one of the blocks. -/
theorem mem_foldrAppend {α β : Type _} (f : α → List β) :
    ∀ (l : List α) (b : β), b ∈ l.foldr (fun a acc => f a ++ acc) [] → ∃ a, a ∈ l ∧ b ∈ f a := by
  intro l
  induction l with
  | nil => simp
  | cons x xs ih =>
    intro b hb
    rcases List.mem_append.mp hb with h | h
    · exact ⟨x, by simp, h⟩
    · rcases ih b h with ⟨a, ha, hfa⟩
      exact ⟨a, by simp [ha], hfa⟩

/-- Every message list emitted by the node flattening is non-empty. -/
theorem flattenNode_msgs_ne_nil :
    ∀ (fuel : Nat) (path : String) (v : J) (p : String) (msgs : List String),
      (p, msgs) ∈ flattenNode fuel path v → msgs ≠ [] := by
  intro fuel
  induction fuel with
  | zero => intro path v p msgs h; simp [flattenNode] at h
  | succ n ih =>
    intro path v p msgs h
    cases v with
    | obj kvs =>
      rw [show flattenNode (n+1) path (J.obj kvs) =
            (if errsOfKVs kvs = [] then [] else [(path, errsOfKVs kvs)])
            ++ (match List.lookup "children" kvs with
                | some (.obj m) =>
                  m.foldr (fun kv acc => flattenNode n (joinPath path kv.fst) kv.snd ++ acc) []
                | some (.arr l) =>
                  l.foldr (fun c acc => flattenNode n path c ++ acc) []
                | _ => []) from rfl] at h
      rcases List.mem_append.mp h with h1 | h2
      · by_cases he : errsOfKVs kvs = []
        · simp [he] at h1
        · simp only [if_neg he, List.mem_singleton, Prod.mk.injEq] at h1
          rcases h1 with ⟨_, hm⟩
          rw [hm]; exact he
      · cases hc : List.lookup "children" kvs with
        | none => rw [hc] at h2; simp at h2
        | some cj =>
          rw [hc] at h2
          cases cj with
          | obj m =>
            rcases mem_foldrAppend _ m _ h2 with ⟨kv, _, hmem⟩
            exact ih _ _ _ _ hmem
          | arr l =>
            rcases mem_foldrAppend _ l _ h2 with ⟨c, _, hmem⟩
            exact ih _ _ _ _ hmem
          | null => simp at h2
          | jbool b => simp at h2
          | num m => simp at h2
          | str s => simp at h2
    | arr xs =>
      rw [show flattenNode (n+1) path (J.arr xs) =
            (if strsOf xs = [] then [] else [(path, strsOf xs)]) from rfl] at h
      by_cases he : strsOf xs = []
      · simp [he] at h
      · simp only [if_neg he, List.mem_singleton, Prod.mk.injEq] at h
        rcases h with ⟨_, hm⟩
        rw [hm]; exact he
    | null => simp [flattenNode] at h
    | jbool b => simp [flattenNode] at h
    | num m => simp [flattenNode] at h
    | str s => simp [flattenNode] at h

/-- A rate-limit error with an absent or elapsed reset time has no reset
delta, whatever its message text. -/
theorem reset_timedelta_eq_none (txt : String) (reset : Option Int) (now : Int)
    (h : reset = none ∨ ∃ t, reset = some t ∧ t ≤ now) :
    BBRateLimitError.reset_timedelta ⟨txt, reset⟩ now = none := by
  rcases h with h | ⟨t, ht, hle⟩
  · rw [h]; rfl
  · rw [ht]
    simp [BBRateLimitError.reset_timedelta, hle]

/-- A rate-limited attempt with a future reset time waits out the delta and
re-dispatches on the remaining script from the reset instant. -/
theorem dispatch_rl_future (n t : Int) (rs : List TResp) (hlt : n < t) :
    dispatch true n (.rl (some t) :: rs) =
      ((dispatch true t rs).fst, (t - n) :: (dispatch true t rs).snd) := by
  have hw : wait_rate_limit ⟨"rate limited", some t⟩ n = (true, [t - n]) := by
    simp [wait_rate_limit, BBRateLimitError.reset_timedelta, not_le.mpr hlt]
  have hn : n + sumList [t - n] = t := by simp [sumList]
  simp only [dispatch, hw, hn, List.singleton_append]

/-! ### Claim theorems -/

/-- C4: flattening a nested validation tree yields only non-empty message
lists (all-empty subtrees are pruned); the spec's example tree flattens to
exactly the a.b entry, and an all-empty tree flattens to the empty
mapping. -/
theorem c4_flat_children_errors (t : List (String × J)) (p : String) (msgs : List String)
    (h : (p, msgs) ∈ flat_children_errors t) :
    msgs ≠ [] ∧ flat_children_errors c4tree = [("a.b", ["x"])] ∧
      flat_children_errors c4empty = [] := by
  refine ⟨?_, rfl, rfl⟩
  rw [flat_children_errors] at h
  rcases mem_foldrAppend _ t _ h with ⟨kv, _, hmem⟩
  exact flattenNode_msgs_ne_nil _ _ _ _ _ hmem

/-- C4 witness: the flattening theorem applied to the spec's example tree at
the entry it produces. -/
theorem c4_flat_children_errors_witness :
    (["x"] : List String) ≠ [] ∧ flat_children_errors c4tree = [("a.b", ["x"])] ∧
      flat_children_errors c4empty = [] :=
  c4_flat_children_errors c4tree "a.b" ["x"] (by decide)

/-- C5: an empty body and the JSON null literal both decode to the absent
value, and both classify as success (no error) whatever the status and
headers. -/
theorem c5_empty_and_null_bodies (status : Int) (headers : List (String × String)) :
    json_or_none "" = none ∧ json_or_none "null" = none ∧
    raise_for_response status headers "" = none ∧
    raise_for_response status headers "null" = none :=
  ⟨rfl, rfl, rfl, rfl⟩

/-- C6: the reset delta is absent when the stored reset time is absent or at
or before now, equals reset time minus now when that is in the future, and
is never zero or negative. -/
theorem c6_reset_timedelta (e : BBRateLimitError) (now : Int) :
    (e.reset_time = none → e.reset_timedelta now = none) ∧
    (∀ t, e.reset_time = some t → t ≤ now → e.reset_timedelta now = none) ∧
    (∀ t, e.reset_time = some t → now < t →
      e.reset_timedelta now = some (t - now) ∧ 0 < t - now) ∧
    (∀ d, e.reset_timedelta now = some d → 0 < d) := by
  obtain ⟨txt, rt⟩ := e
  refine ⟨?_, ?_, ?_, ?_⟩
  · intro h
    cases h
    rfl
  · intro t ht hle
    cases ht
    simp [BBRateLimitError.reset_timedelta, hle]
  · intro t ht hlt
    cases ht
    constructor
    · simp [BBRateLimitError.reset_timedelta, not_le.mpr hlt]
    · omega
  · intro d hd
    cases rt with
    | none => simp [BBRateLimitError.reset_timedelta] at hd
    | some t =>
      simp only [BBRateLimitError.reset_timedelta] at hd
      split at hd
      · exact absurd hd (by simp)
      · rename_i hnle
        have : t - now = d := Option.some_injective _ hd
        omega

/-- C6 witness: the reset-delta theorem applied to concrete future, present
and absent reset times. -/
theorem c6_reset_timedelta_witness :
    BBRateLimitError.reset_timedelta ⟨"x", some 10⟩ 3 = some 7 ∧ (0 : Int) < 7 ∧
    BBRateLimitError.reset_timedelta ⟨"x", some 10⟩ 10 = none ∧
    BBRateLimitError.reset_timedelta ⟨"x", none⟩ 3 = none :=
  ⟨((c6_reset_timedelta ⟨"x", some 10⟩ 3).2.2.1 10 rfl (by decide)).1,
   ((c6_reset_timedelta ⟨"x", some 10⟩ 3).2.2.1 10 rfl (by decide)).2,
   (c6_reset_timedelta ⟨"x", some 10⟩ 10).2.1 10 rfl (by decide),
   (c6_reset_timedelta ⟨"x", none⟩ 3).1 rfl⟩

/-- C7: with retries disabled, a rate-limited attempt propagates at once as
a rate-limit error, with no retry issued (the rest of the transport script
is never consulted) and nothing waited. -/
theorem c7_no_retry_when_disabled (now : Int) (reset : Option Int) (rest : List TResp) :
    dispatch false now (.rl reset :: rest) = (.rateLimit reset, []) := by
  rcases hw : wait_rate_limit ⟨"rate limited", reset⟩ now with ⟨b, ws⟩
  simp [dispatch, hw]

/-- C9: a rate-limit error whose reset time is absent or not in the future
causes no wait (the wait function is never invoked, the first component is
false) and no retry: dispatch propagates the rate-limit error with an empty
wait trace. -/
theorem c9_no_wait_no_retry (e : BBRateLimitError) (now : Int)
    (h : e.reset_time = none ∨ ∃ t, e.reset_time = some t ∧ t ≤ now) :
    wait_rate_limit e now = (false, []) ∧
    ∀ rest, dispatch true now (.rl e.reset_time :: rest) = (.rateLimit e.reset_time, []) := by
  obtain ⟨txt, rt⟩ := e
  have hnone : BBRateLimitError.reset_timedelta ⟨txt, rt⟩ now = none :=
    reset_timedelta_eq_none txt rt now h
  have hnone2 : BBRateLimitError.reset_timedelta ⟨"rate limited", rt⟩ now = none :=
    reset_timedelta_eq_none "rate limited" rt now h
  constructor
  · rw [wait_rate_limit, hnone]
  · intro rest
    have hw : wait_rate_limit ⟨"rate limited", rt⟩ now = (false, []) := by
      rw [wait_rate_limit, hnone2]
    simp [dispatch, hw]

/-- C9 witness: the no-wait theorem applied to a rate-limit error with no
reset header. -/
theorem c9_no_wait_no_retry_witness :
    wait_rate_limit ⟨"x", none⟩ 0 = (false, []) ∧
    dispatch true 0 [.rl none] = (.rateLimit none, []) :=
  ⟨(c9_no_wait_no_retry ⟨"x", none⟩ 0 (Or.inl rfl)).1,
   (c9_no_wait_no_retry ⟨"x", none⟩ 0 (Or.inl rfl)).2 []⟩

/-- C1 counterexample: with retries enabled and a transport that rate-limits
the first two attempts (future reset times) and then succeeds — the exact
scenario of `test_retry_on_rate_limit_true_2` — dispatch waits and retries
twice and returns the success; the second rate-limit error is not
propagated, contradicting the claim that at most one retry is ever
performed. -/
theorem c1_single_retry_counterexample :
    dispatch true 0 [.rl (some 10), .rl (some 20), .ok 7] = (.ok 7, [10, 10]) ∧
    (dispatch true 0 [.rl (some 10), .rl (some 20), .ok 7]).fst ≠ .rateLimit (some 20) :=
  ⟨rfl, by decide⟩

/-- C1 amended: with retries enabled, a rate-limited attempt with a future
reset time triggers exactly one wait-and-retry cycle whose success is
returned; but the single retry is not terminal — a retried attempt that is
again rate-limited with a future reset time is waited out and retried
again, and only a rate-limit error with an absent or elapsed reset time
propagates (without waiting). -/
theorem c1_retry_until_not_rate_limited (now t : Int) (v : Nat) (rest : List TResp) :
    (now < t → dispatch true now (.rl (some t) :: .ok v :: rest) = (.ok v, [t - now])) ∧
    (∀ t2, now < t → t < t2 →
      dispatch true now (.rl (some t) :: .rl (some t2) :: .ok v :: rest) =
        (.ok v, [t - now, t2 - t])) ∧
    (∀ reset, (reset = none ∨ ∃ r, reset = some r ∧ r ≤ now) →
      dispatch true now (.rl reset :: rest) = (.rateLimit reset, [])) := by
  refine ⟨?_, ?_, ?_⟩
  · intro hlt
    rw [dispatch_rl_future now t _ hlt]
    rfl
  · intro t2 hlt hlt2
    rw [dispatch_rl_future now t _ hlt, dispatch_rl_future t t2 _ hlt2]
    rfl
  · intro reset hres
    have hw : wait_rate_limit ⟨"rate limited", reset⟩ now = (false, []) := by
      rw [wait_rate_limit, reset_timedelta_eq_none "rate limited" reset now hres]
    simp [dispatch, hw]

/-- C1 amended witness: one rate-limit then success (one cycle), two
rate-limits then success (two cycles), and an elapsed reset (immediate
propagation), at concrete instants. -/
theorem c1_retry_until_not_rate_limited_witness :
    dispatch true 0 [.rl (some 5), .ok 3] = (.ok 3, [5]) ∧
    dispatch true 0 [.rl (some 5), .rl (some 9), .ok 3] = (.ok 3, [5, 4]) ∧
    dispatch true 0 [.rl (some (-1))] = (.rateLimit (some (-1)), []) :=
  ⟨by simpa using (c1_retry_until_not_rate_limited 0 5 3 []).1 (by decide),
   by simpa using (c1_retry_until_not_rate_limited 0 5 3 []).2.1 9 (by decide) (by decide),
   (c1_retry_until_not_rate_limited 0 1 0 []).2.2 (some (-1)) (Or.inr ⟨-1, rfl, by decide⟩)⟩

/-- C2: a body starting with an HTTP status-line pattern is classified by
the embedded status and the payload after the embedded header block — the
outer status is irrelevant; the real-world 200-wrapping-a-500 body
classifies as a server error whose message contains the embedded error
text, never as success. -/
theorem c2_embedded_status (s1 s2 : Int) (headers : List (String × String))
    (body : String) (est : Int) (payload : String)
    (h : parseEmbedded body = some (est, payload)) :
    raise_for_response s1 headers body = classifyCore est headers payload ∧
    raise_for_response s1 headers body = raise_for_response s2 headers body ∧
    raise_for_response 200 [] c2body = some (.serverError c2payload) ∧
    raise_for_response 200 [] c2body ≠ none ∧
    strContains c2payload "not available" = true := by
  refine ⟨?_, ?_, rfl, by decide, rfl⟩
  · simp only [raise_for_response, h]
  · simp only [raise_for_response, h]

/-- C2 witness: the embedded-status theorem applied to the concrete
body-as-headers response, with two different outer statuses. -/
theorem c2_embedded_status_witness :
    raise_for_response 200 [] c2body = raise_for_response 404 [] c2body :=
  (c2_embedded_status 200 404 [] c2body 500 c2payload rfl).2.1

/-- C3: a JSON body with numeric code 409 whose message field is itself
JSON with the info/data per-SKU shape classifies as a product error
carrying exactly the extracted (sku, message) pairs; the single-entry
payloads for S1 (spec) and S5001344 (test) yield exactly that single
pair with message "Inactive product.". -/
theorem c3_product_error (status : Int) (headers : List (String × String)) (body : String)
    (kvs : List (String × J)) (info : String) (pairs : List (String × String))
    (h1 : parseEmbedded body = none)
    (h2 : body ≠ "" ∧ body ≠ "null")
    (h3 : json_or_none body = some (.obj kvs))
    (h4 : getCode kvs = some 409)
    (h5 : productErrorData (getMessage kvs) = some (info, pairs)) :
    raise_for_response status headers body = some (.productError info pairs) ∧
    raise_for_response 409 [] (productBody "S1") =
      some (.productError "Products error." [("S1", "Inactive product.")]) ∧
    raise_for_response 409 [] (productBody "S5001344") =
      some (.productError "Products error." [("S5001344", "Inactive product.")]) := by
  refine ⟨?_, rfl, rfl⟩
  have hcond : ¬ (body = "" ∨ body = "null") := by
    rintro (hh | hh)
    · exact h2.1 hh
    · exact h2.2 hh
  simp only [raise_for_response, h1, classifyCore, if_neg hcond, h3, h4, h5, if_true]

/-- C3 witness: the product-error theorem applied to the concrete S1 body,
smuggled through an outer 200 status. -/
theorem c3_product_error_witness :
    raise_for_response 200 [] (productBody "S1") =
      some (.productError "Products error." [("S1", "Inactive product.")]) :=
  (c3_product_error 200 [] (productBody "S1") productKVsS1 "Products error."
      [("S1", "Inactive product.")] rfl ⟨by decide, by decide⟩ rfl rfl rfl).1

/-- C8: a JSON body with numeric code 409 that has neither the
double-encoded product-error message shape nor an errors tree classifies as
a response error carrying the body's message text and the declared code —
also when the outer status is 200 (soft error). -/
theorem c8_soft_409 (status : Int) (headers : List (String × String)) (body : String)
    (kvs : List (String × J))
    (h1 : parseEmbedded body = none)
    (h2 : body ≠ "" ∧ body ≠ "null")
    (h3 : json_or_none body = some (.obj kvs))
    (h4 : getCode kvs = some 409)
    (h5 : productErrorData (getMessage kvs) = none)
    (h6 : ∀ ekvs, List.lookup "errors" kvs ≠ some (J.obj ekvs)) :
    raise_for_response status headers body = some (.responseError (getMessage kvs) 409) := by
  have hcond : ¬ (body = "" ∨ body = "null") := by
    rintro (hh | hh)
    · exact h2.1 hh
    · exact h2.2 hh
  simp only [raise_for_response, h1, classifyCore, if_neg hcond, h3, h4, h5, if_true]
  simp only [validationOrResponse]
  rw [ite_self]

/-- C8 witness: the soft-409 theorem applied to the concrete test body with
outer status 200. -/
theorem c8_soft_409_witness :
    raise_for_response 200 [] softBody =
      some (.responseError "Something went wrong 56783360c34fff84fe56880fbf62179b" 409) :=
  c8_soft_409 200 [] softBody softKVs rfl ⟨by decide, by decide⟩ rfl rfl rfl
    (fun ekvs hc => Option.noConfusion hc)

/-- Searching a list extended on the right finds the left part first, then
checks the appended element. -/
theorem find?_append_single (p : Tracking → Bool) (t : Tracking) :
    ∀ l : List Tracking,
      (l ++ [t]).find? p = optOr (l.find? p) (if p t then some t else none) := by
  intro l
  induction l with
  | nil =>
    cases hp : p t <;> simp [List.find?, hp, optOr]
  | cons x xs ih =>
    cases hx : p x
    · rw [List.cons_append, List.find?_cons_of_neg _ (by simp [hx]),
        List.find?_cons_of_neg _ (by simp [hx]), ih]
    · rw [List.cons_append, List.find?_cons_of_pos _ (by simp [hx]),
        List.find?_cons_of_pos _ (by simp [hx])]
      rfl

/-- optOr is associative. -/
theorem optOr_assoc (a b c : Option Tracking) :
    optOr (optOr a b) c = optOr a (optOr b c) := by
  cases a <;> rfl

/-- optOr with an absent fallback is the identity. -/
theorem optOr_none (a : Option Tracking) : optOr a none = a := by
  cases a <;> rfl

/-- Folding dict insertions of the trackings over a base map and then
looking a key up finds the last inserted tracking whose stringified id is
the key, falling back to the base map. -/
theorem foldl_insertTracking (ts : List Tracking) :
    ∀ (f : String → Option Tracking) (k : String),
      (ts.foldl insertTracking f) k =
        optOr ((ts.reverse).find? (fun t => str_of_ident t.id == k)) (f k) := by
  induction ts with
  | nil => intro f k; rfl
  | cons t ts ih =>
    intro f k
    rw [List.foldl_cons, ih, List.reverse_cons,
      find?_append_single (fun t => str_of_ident t.id == k) t (ts.reverse), optOr_assoc]
    by_cases hk : str_of_ident t.id = k
    · simp only [insertTracking, hk, if_pos rfl, beq_self_eq_true, if_true]
      rcases (ts.reverse).find? (fun t => str_of_ident t.id == k) with _ | u <;> rfl
    · have hne : (str_of_ident t.id == k) = false := beq_eq_false_iff_ne.mpr hk
      have hne2 : ¬ (k = str_of_ident t.id) := fun hh => hk hh.symm
      simp only [insertTracking, hne, if_neg hne2, if_false]
      rfl

/-- C10: with match_ids enabled, the returned list has exactly the length of
the requested order ids, and its i-th element is the (last) tracking entry
of the upstream reply whose stringified id equals the stringified i-th
order id, or the absent value when the reply has none — whatever the
reply's order, omissions or duplicates. -/
theorem c10_get_tracking_orders (order_ids : List Ident) (trackings : List Tracking)
    (i : Nat) (oid : Ident) (h : order_ids[i]? = some oid) :
    (get_tracking_orders order_ids true trackings).length = order_ids.length ∧
    (get_tracking_orders order_ids true trackings)[i]? =
      some ((trackings.reverse).find? (fun t => str_of_ident t.id == str_of_ident oid)) := by
  constructor
  · simp [get_tracking_orders]
  · simp only [get_tracking_orders, Bool.true_eq_false, if_false, List.getElem?_map, h,
      Option.map_some']
    rw [foldl_insertTracking trackings (fun _ => none) (str_of_ident oid), optOr_none]

/-- C10 witness: the tracking-match theorem applied to a reply that is
reordered, has a duplicate id and omits one requested id, with ids matched
across int and string forms. -/
theorem c10_get_tracking_orders_witness :
    (get_tracking_orders [Ident.num 1, Ident.num 3, Ident.num 2] true
        [⟨Ident.str "2", 20⟩, ⟨Ident.num 1, 10⟩, ⟨Ident.num 1, 11⟩]).length = 3 ∧
    (get_tracking_orders [Ident.num 1, Ident.num 3, Ident.num 2] true
        [⟨Ident.str "2", 20⟩, ⟨Ident.num 1, 10⟩, ⟨Ident.num 1, 11⟩])[0]? =
      some ((([⟨Ident.str "2", 20⟩, ⟨Ident.num 1, 10⟩, ⟨Ident.num 1, 11⟩] :
          List Tracking).reverse).find?
        (fun t => str_of_ident t.id == str_of_ident (Ident.num 1))) :=
  c10_get_tracking_orders [Ident.num 1, Ident.num 3, Ident.num 2]
    [⟨Ident.str "2", 20⟩, ⟨Ident.num 1, 10⟩, ⟨Ident.num 1, 11⟩] 0 (Ident.num 1) rfl

end PyBigBuy
